import Mathlib

/-!
Verification of the video-labelling-tool SAM service core
(`src/sam-service/core/sam2_video_predictor.py`,
`src/sam-service/core/job_manager.py`, `src/sam-service/schemas.py`).

The Python code is shallowly embedded: in-place mutation of the predictor's
session table / job table becomes explicit state passing, Python exceptions
become an error value returned *alongside* the post-mutation state (so that
mutations performed before a `raise` are kept, exactly as in Python), and
calls into external libraries (the SAM2 segmenter, PIL resize, the thread
pool) are modelled by explicitly passed outcomes.
-/

namespace VidLabel

/-- Association-list lookup, modelling Python `dict.get` / `key in dict`. -/
def lookupA {α β : Type} [DecidableEq α] (k : α) : List (α × β) → Option β
  | [] => none
  | (k', v) :: rest => if k' = k then some v else lookupA k rest

/-- Association-list insert-or-replace, modelling Python `d[k] = v`
(replaces in place, preserving insertion order; appends if absent). -/
def insertA {α β : Type} [DecidableEq α] (k : α) (v : β) : List (α × β) → List (α × β)
  | [] => [(k, v)]
  | (k', v') :: rest => if k' = k then (k, v) :: rest else (k', v') :: insertA k v rest

/-- Association-list removal, modelling Python `del d[k]` (keys are unique,
so removing every occurrence coincides with removing the one entry). -/
def removeA {α β : Type} [DecidableEq α] (k : α) : List (α × β) → List (α × β)
  | [] => []
  | (k', v') :: rest =>
    if k' = k then removeA k rest else (k', v') :: removeA k rest

/-! ## Job manager (`core/job_manager.py`) -/

/-- `JobStatus` enumeration (job_manager.py lines 31-37). -/
inductive JobStatus
  | pending
  | running
  | completed
  | failed
deriving DecidableEq

/-- One entry of a sanitizable result dictionary; the values held by a
propagation result are opaque here, modelled as `Nat`. -/
abbrev ResultDict := List (String × Nat)

/-- The `Job` dataclass (job_manager.py lines 40-53).  `datetime` timestamps
are modelled as `Nat`; the float `progress` as `ℚ`; the opaque `params`
dictionary as string pairs. -/
structure Job where
  jobId : String
  jobType : String
  status : JobStatus
  createdAt : Nat
  startedAt : Option Nat := none
  completedAt : Option Nat := none
  progress : ℚ := 0
  result : Option ResultDict := none
  error : Option String := none
  params : List (String × String) := []
deriving DecidableEq

/-- The `ThreadPoolExecutor` backing `InMemoryJobManager`, modelled just far
enough to record which submitted tasks a worker has actually picked up
(`running`) and which are still waiting in the pool's queue (`queued`). -/
structure Executor where
  maxWorkers : Nat
  running : List String := []
  queued : List String := []
deriving DecidableEq

/-- `InMemoryJobManager` state: the `jobs` dict plus its executor. -/
structure JobMgr where
  jobs : List (String × Job) := []
  executor : Executor
deriving DecidableEq

/-- `InMemoryJobManager.submit_job` (job_manager.py lines 143-170).
`jid` stands for the generated uuid and `now` for `datetime.now()`.
The job is created `PENDING`, handed to the executor (which starts it only
if a worker is free, otherwise queues it), and then — unconditionally —
the manager sets `status = RUNNING` and stamps `started_at`. -/
def submitJob (m : JobMgr) (now : Nat) (jid jobType : String)
    (params : List (String × String)) : JobMgr × String :=
  let job : Job :=
    { jobId := jid
      jobType := jobType
      status := .pending
      createdAt := now
      params := params }
  let jobs1 := insertA jid job m.jobs
  -- executor.submit: a free worker picks the task up, otherwise it queues
  let ex :=
    if m.executor.running.length < m.executor.maxWorkers then
      { m.executor with running := m.executor.running ++ [jid] }
    else
      { m.executor with queued := m.executor.queued ++ [jid] }
  -- lines 165-167: status flipped to RUNNING at submission time
  let jobs2 := insertA jid { job with status := .running, startedAt := some now } jobs1
  ({ jobs := jobs2, executor := ex }, jid)

/-- `InMemoryJobManager._sanitize_result` (lines 172-187): drop the `frames`
key from a dict result. -/
def sanitizeResult (r : ResultDict) : ResultDict :=
  r.filter (fun kv => kv.1 ≠ "frames")

/-- `InMemoryJobManager._execute_job`'s terminal transition (lines 189-220).
The task body's outcome is passed in: `.ok r` for a normal return with result
dict `r`, `.error msg` for a raised exception whose `str(e)` is `msg`.
`now` stands for `datetime.now()` at completion. -/
def executeJobFinish (m : JobMgr) (now : Nat) (jid : String)
    (outcome : Except String ResultDict) : JobMgr :=
  let ex := { m.executor with running := m.executor.running.erase jid }
  match lookupA jid m.jobs with
  | none => { m with executor := ex }
  | some job =>
    match outcome with
    | .ok r =>
      { jobs := insertA jid
          { job with
            status := .completed
            completedAt := some now
            progress := 100
            result := some (sanitizeResult r) } m.jobs
        executor := ex }
    | .error msg =>
      { jobs := insertA jid
          { job with
            status := .failed
            completedAt := some now
            error := some msg } m.jobs
        executor := ex }

/-- `InMemoryJobManager.get_job` (lines 222-225). -/
def getJob (m : JobMgr) (jid : String) : Option Job :=
  lookupA jid m.jobs

/-- `InMemoryJobManager.update_progress` (lines 227-231): clamp to [0, 100]
and overwrite the `progress` field — with no check of the job's status. -/
def updateProgress (m : JobMgr) (jid : String) (p : ℚ) : JobMgr :=
  match lookupA jid m.jobs with
  | none => m
  | some job =>
    { m with jobs := insertA jid { job with progress := max 0 (min 100 p) } m.jobs }

/-- `InMemoryJobManager.cleanup_old_jobs` (lines 233-254). -/
def cleanupOldJobs (m : JobMgr) (now : Nat) (maxAgeSeconds : Nat) : JobMgr × Nat :=
  let isOld : String × Job → Bool := fun p =>
    (p.2.status == .completed || p.2.status == .failed) &&
      (match p.2.completedAt with
       | some t => decide (maxAgeSeconds < now - t)
       | none => false)
  let keep := m.jobs.filter (fun p => ! isOld p)
  ({ m with jobs := keep }, m.jobs.length - keep.length)

/-! ## Masks (`core/sam2_video_predictor.py` mask helpers, `schemas.py`)

A mask is a 2-D `uint8` array; we model it as a list of pixel rows.
Point coordinates are floats in Python but are truncated with `int(...)`
before every use that we model, so they are carried as `Int` here. -/

abbrev Mask2D := List (List Nat)

/-- `np.zeros((h, w), dtype=np.uint8)`. -/
def zerosMask (h w : Nat) : Mask2D :=
  List.replicate h (List.replicate w 0)

/-- `cv2.circle(mask, (x, y), radius, v, -1)`: fill the disc of the given
radius centred at `(x, y)` with value `v` (column = x, row = y).  The exact
OpenCV rasterization is modelled as the Euclidean disc; the properties
proved below depend only on the written value and the array shape. -/
def drawCircle (m : Mask2D) (x y : Int) (radius : Nat) (v : Nat) : Mask2D :=
  m.mapIdx fun r row =>
    row.mapIdx fun c pix =>
      if ((c : Int) - x) ^ 2 + ((r : Int) - y) ^ 2 ≤ (radius : Int) ^ 2 then v else pix

/-- `cv2.rectangle(mask, (x1, y1), (x2, y2), v, -1)`: fill the axis-aligned
rectangle (both corners included) with value `v`. -/
def drawRect (m : Mask2D) (x1 y1 x2 y2 : Int) (v : Nat) : Mask2D :=
  m.mapIdx fun r row =>
    row.mapIdx fun c pix =>
      if x1 ≤ (c : Int) ∧ (c : Int) ≤ x2 ∧ y1 ≤ (r : Int) ∧ (r : Int) ≤ y2 then v
      else pix

/-- `SAM2VideoPredictor._simulate_mask` (lines 983-1001): start from zeros,
draw value 1 for each positive point and value 0 for each negative point,
with radius `min(h, w) // 10`.  `zip` truncates to the shorter of
`points`/`labels`, exactly as in Python. -/
def simulateMask (frameHeight frameWidth : Nat) (points : List (Int × Int))
    (labels : List Int) : Mask2D :=
  let radius := min frameHeight frameWidth / 10
  (points.zip labels).foldl
    (fun m pl => drawCircle m pl.1.1 pl.1.2 radius (if pl.2 = 1 then 1 else 0))
    (zerosMask frameHeight frameWidth)

/-- `SAM2VideoPredictor._simulate_box_mask` (lines 1003-1010). -/
def simulateBoxMask (frameHeight frameWidth : Nat)
    (box : Int × Int × Int × Int) : Mask2D :=
  drawRect (zerosMask frameHeight frameWidth) box.1 box.2.1 box.2.2.1 box.2.2.2 1

/-- `SAM2VideoPredictor._apply_refinement_simulation` (lines 1046-1062):
draw refinement discs of radius `min(h, w) // 15` onto a copy of the mask. -/
def applyRefinementSimulation (mask : Mask2D) (points : List (Int × Int))
    (labels : List Int) : Mask2D :=
  let h := mask.length
  let w := (mask.headD []).length
  let radius := min h w / 15
  (points.zip labels).foldl
    (fun m pl => drawCircle m pl.1.1 pl.1.2 radius (if pl.2 = 1 then 1 else 0))
    mask

/-- The logits-to-mask conversion
`(out_mask_logits[0] > 0.0).cpu().numpy().squeeze().astype(np.uint8)`
(e.g. lines 554-555).  Only the sign of a logit matters, so the segmenter's
float logits are carried as `Int`; the result is a {0, 1}-valued uint8 grid. -/
def binarizeLogits (logits : List (List Int)) : Mask2D :=
  logits.map fun row => row.map fun v => if 0 < v then 1 else 0

/-- `schemas.encode_mask` (schemas.py lines 246-276), restricted to the
`uint8` arrays that every mask handled by the service is (`astype(np.uint8)`
at each producer).  PNG + base64 encoding is lossless on a single-channel
uint8 image, so we model the pixel grid that goes onto the wire:
`np.isnan` on a uint8 array is all-False, the `dtype != np.uint8` rescale
branch is skipped, and the final range clip is the identity on uint8. -/
def encodeMaskPixels (m : Mask2D) : Mask2D :=
  if (m.map List.length).sum = 0 then zerosMask 480 640 else m

/-- A value `v` occurs as a pixel of the mask. -/
def maskHasValue (m : Mask2D) (v : Nat) : Prop :=
  ∃ row ∈ m, v ∈ row

instance (m : Mask2D) (v : Nat) : Decidable (maskHasValue m v) := by
  unfold maskHasValue; infer_instance

/-- Every pixel value of the mask lies in the value set `S`. -/
def maskValsIn (m : Mask2D) (S : List Nat) : Prop :=
  ∀ row ∈ m, ∀ v ∈ row, v ∈ S

instance (m : Mask2D) (S : List Nat) : Decidable (maskValsIn m S) := by
  unfold maskValsIn; infer_instance

/-- The grid has `h` rows that all have `w` entries (`arr.shape == (h, w)`). -/
def gridShape {α : Type} (m : List (List α)) (h w : Nat) : Prop :=
  m.length = h ∧ ∀ row ∈ m, row.length = w

instance {α : Type} (m : List (List α)) (h w : Nat) : Decidable (gridShape m h w) := by
  unfold gridShape; infer_instance

/-! ## Data model (`core/sam2_video_predictor.py` lines 27-66) -/

/-- The `"type"` tag of a prompt record dict. -/
inductive PromptKind
  | initial
  | initialBox
  | refinement
deriving DecidableEq

/-- One prompt record dict as stored in `TrackedObject.prompts`
(`{"frame_idx", "points", "labels", "type"}` or
`{"frame_idx", "box", "type"}`). -/
structure Prompt where
  frameIdx : Int
  points : List (Int × Int) := []
  labels : List Int := []
  box : Option (Int × Int × Int × Int) := none
  kind : PromptKind
deriving DecidableEq

/-- The `TrackedObject` dataclass (lines 27-36). -/
structure TrackedObject where
  objectId : Int
  name : String := ""
  category : String := ""
  color : Nat × Nat × Nat := (255, 0, 0)
  prompts : List Prompt := []
  masks : List (Int × Mask2D) := []
deriving DecidableEq

/-- The `VideoSession` dataclass (lines 39-66).  Decoded frame pixel data is
abstract (frames are carried as opaque `Nat` handles); float timestamps are
modelled as `Nat`; `inference_state` is opaque to the core, so only its
presence is tracked. -/
structure VideoSession where
  sessionId : String
  videoPath : String
  videoFrames : List Nat
  frameWidth : Nat
  frameHeight : Nat
  totalFrames : Nat
  fps : ℚ
  framesDir : Option String := none
  objects : List (Int × TrackedObject) := []
  hasInferenceState : Bool := false
  createdAt : Nat
  lastAccessed : Nat
deriving DecidableEq

/-- The `SAM2VideoPredictor.__init__` configuration (lines 116-131), plus
whether `initialize()` succeeded (`self.predictor is not None`). -/
structure Config where
  predictorLoaded : Bool
  sessionTimeout : Nat := 900
  maxConcurrentSessions : Nat := 2
  maxVideoFrames : Nat := 300
  maxFrameDimension : Nat := 1920
deriving DecidableEq

/-- The predictor's mutable state: the `self.sessions` dict, together with
the ambient filesystem's set of FrameStore scratch directories (created by
`_extract_frames_to_dir`, removed by `VideoSession.cleanup`). -/
structure SamService where
  cfg : Config
  sessions : List (String × VideoSession) := []
  fs : List String := []
deriving DecidableEq

/-- A freshly constructed `SAM2VideoPredictor`: no sessions, no scratch dirs. -/
def SamService.init (cfg : Config) : SamService :=
  { cfg := cfg }

/-- Python exceptions raised by the predictor. -/
inductive PyErr
  | valueError (msg : String)
  | runtimeError (msg : String)
  /-- an exception propagating out of the external SAM2 library -/
  | externalError (msg : String)
deriving DecidableEq

/-- What `cv2.VideoCapture` exposes about a video file: openability,
the decoded frames (abstract handles), and metadata. -/
structure Video where
  path : String
  openable : Bool
  frames : List Nat
  fps : ℚ
  width : Nat
  height : Nat
deriving DecidableEq

/-! ## Session management (lines 297-479) -/

/-- The downsampling of `_load_video_frames` (lines 419-432): if either
dimension exceeds `max_frame_dimension`, scale uniformly by
`min(maxD / w, maxD / h)` and truncate as `int(...)` does. -/
def workingDims (maxDim w h : Nat) : Nat × Nat :=
  if maxDim < w ∨ maxDim < h then
    let scale : ℚ := min ((maxDim : ℚ) / w) ((maxDim : ℚ) / h)
    ((((w : ℚ) * scale).floor).toNat, (((h : ℚ) * scale).floor).toNat)
  else (w, h)

/-- The read loop of `_load_video_frames` (lines 442-464): read a frame;
stop when the stream ends; stop (discarding the frame just read) once
`frame_count >= max_video_frames`. -/
def readFrames (maxFrames : Nat) : List Nat → Nat → List Nat
  | [], _ => []
  | f :: rest, count =>
    if maxFrames ≤ count then [] else f :: readFrames maxFrames rest (count + 1)

/-- `SAM2VideoPredictor._load_video_frames` (lines 405-479): reject an
unreadable video, else return the (count-limited) frames and the working
dimensions.  Per-frame pixel processing (downscale, BGR→RGB) does not change
the frame count and is absorbed into the abstract frame handles. -/
def loadVideoFrames (cfg : Config) (vid : Video) :
    Except PyErr (List Nat × Nat × Nat × ℚ) :=
  if vid.openable then
    let dims := workingDims cfg.maxFrameDimension vid.width vid.height
    .ok (readFrames cfg.maxVideoFrames vid.frames 0, dims.1, dims.2, vid.fps)
  else
    .error (.valueError ("Could not open video: " ++ vid.path))

/-- `SAM2VideoPredictor.close_session` (lines 375-389): for a known id,
reset the Segmenter state (external), remove the scratch dir
(`session.cleanup`), and drop the session; unknown ids are ignored. -/
def closeSession (st : SamService) (sid : String) : SamService :=
  match lookupA sid st.sessions with
  | none => st
  | some s =>
    let fs' := match s.framesDir with
      | some d => st.fs.filter (fun d' => d' ≠ d)
      | none => st.fs
    { st with sessions := removeA sid st.sessions, fs := fs' }

/-- `session.idle_time > self.session_timeout` (lines 393-397), with
`time.time()` passed in as `now`. -/
def sessionExpired (timeout now : Nat) (s : VideoSession) : Bool :=
  decide (timeout < now - s.lastAccessed)

/-- `SAM2VideoPredictor.cleanup_expired_sessions` (lines 391-403). -/
def cleanupExpiredSessions (st : SamService) (now : Nat) : SamService × Nat :=
  let expired :=
    (st.sessions.filter fun p => sessionExpired st.cfg.sessionTimeout now p.2).map
      Prod.fst
  (expired.foldl closeSession st, expired.length)

/-- The capacity error message of `create_session` (lines 312-315). -/
def capacityMsg (maxSessions : Nat) : String :=
  "Maximum concurrent sessions (" ++ toString maxSessions ++
    ") reached. Please close existing sessions or wait for them to expire."

/-- The body of `create_session` after the admission gate (lines 318-348):
load the frames, materialize them into a fresh scratch directory `newDir`
(`_extract_frames_to_dir`), build the session, prepare the Segmenter state
iff the model is loaded, and register the session. -/
def createSessionCore (st : SamService) (now : Nat) (newSid newDir : String)
    (vid : Video) : SamService × Except PyErr VideoSession :=
  match loadVideoFrames st.cfg vid with
  | .error e => (st, .error e)
  | .ok (frames, w, h, fps) =>
    let session : VideoSession :=
      { sessionId := newSid
        videoPath := vid.path
        videoFrames := frames
        frameWidth := w
        frameHeight := h
        totalFrames := frames.length
        fps := fps
        framesDir := some newDir
        hasInferenceState := st.cfg.predictorLoaded
        createdAt := now
        lastAccessed := now }
    ({ st with sessions := insertA newSid session st.sessions
               fs := st.fs ++ [newDir] },
     .ok session)

/-- `SAM2VideoPredictor.create_session` (lines 297-348): if the session
table is at `max_concurrent_sessions`, first auto-clean expired sessions;
if still at the limit, fail with the capacity `RuntimeError`. -/
def createSession (st : SamService) (now : Nat) (newSid newDir : String)
    (vid : Video) : SamService × Except PyErr VideoSession :=
  if st.cfg.maxConcurrentSessions ≤ st.sessions.length then
    let st1 := (cleanupExpiredSessions st now).1
    if st1.cfg.maxConcurrentSessions ≤ st1.sessions.length then
      (st1, .error (.runtimeError (capacityMsg st1.cfg.maxConcurrentSessions)))
    else
      createSessionCore st1 now newSid newDir vid
  else
    createSessionCore st now newSid newDir vid

/-- `SAM2VideoPredictor.get_session` (lines 368-373): refresh
`last_accessed` on a hit. -/
def getSession (st : SamService) (now : Nat) (sid : String) :
    SamService × Option VideoSession :=
  match lookupA sid st.sessions with
  | none => (st, none)
  | some s =>
    let s' := { s with lastAccessed := now }
    ({ st with sessions := insertA sid s' st.sessions }, some s')

/-! ## Object tracking (lines 483-954) -/

/-- The `OBJECT_COLORS` palette (lines 105-114). -/
def OBJECT_COLORS : List (Nat × Nat × Nat) :=
  [(255, 0, 0), (0, 255, 0), (0, 0, 255), (255, 255, 0),
   (255, 0, 255), (0, 255, 255), (255, 128, 0), (128, 0, 255)]

/-- The result dict of `add_object` / `add_object_with_box`. -/
structure AddResult where
  objectId : Int
  name : String
  category : String
  color : Nat × Nat × Nat
  frameIdx : Int
  mask : Mask2D
deriving DecidableEq

/-- The result dict of `refine_mask` / `update_mask`. -/
structure MaskResult where
  objectId : Int
  frameIdx : Int
  mask : Mask2D
deriving DecidableEq

/-- Write an updated tracked object back: Python mutates the
`TrackedObject` held inside the session held inside `self.sessions`, so the
functional model re-inserts both. -/
def storeObject (st : SamService) (sid : String) (s : VideoSession)
    (objectId : Int) (tObj : TrackedObject) : SamService :=
  { st with sessions :=
      insertA sid { s with objects := insertA objectId tObj s.objects } st.sessions }

/-- `SAM2VideoPredictor.add_object` (lines 483-577).  The external SAM2 call
`add_new_points_or_box` is modelled by its outcome `seg`: `.ok logits` is
the returned `out_mask_logits[0]` grid, `.error e` a raised exception.
Validation: only the session lookup and the frame-index range are checked
— point/label counts and label values are not. -/
def addObject (st : SamService) (now : Nat) (sid : String) (frameIdx : Int)
    (objectId : Int) (points : List (Int × Int)) (labels : List Int)
    (name category : String) (seg : Except String (List (List Int))) :
    SamService × Except PyErr AddResult :=
  match getSession st now sid with
  | (st1, none) => (st1, .error (.valueError ("Session not found: " ++ sid)))
  | (st1, some s) =>
    if frameIdx < 0 ∨ (s.totalFrames : Int) ≤ frameIdx then
      (st1, .error (.valueError ("Invalid frame index: " ++ toString frameIdx)))
    else
      let colorIdx := s.objects.length % OBJECT_COLORS.length
      let baseObj : TrackedObject :=
        { objectId := objectId
          name := if name = "" then "Object " ++ toString objectId else name
          category := category
          color := OBJECT_COLORS.getD colorIdx (255, 0, 0)
          prompts := [{ frameIdx := frameIdx, points := points, labels := labels,
                        kind := .initial }] }
      if st1.cfg.predictorLoaded && s.hasInferenceState then
        match seg with
        | .error e => (st1, .error (.externalError e))
        | .ok logits =>
          -- `np.isnan(mask).any()` is always False on the uint8 result
          let mask := binarizeLogits logits
          let tObj := { baseObj with masks := [(frameIdx, mask)] }
          (storeObject st1 sid s objectId tObj,
           .ok { objectId := objectId, name := tObj.name, category := category,
                 color := tObj.color, frameIdx := frameIdx, mask := mask })
      else
        let mask := simulateMask s.frameHeight s.frameWidth points labels
        let tObj := { baseObj with masks := [(frameIdx, mask)] }
        (storeObject st1 sid s objectId tObj,
         .ok { objectId := objectId, name := tObj.name, category := category,
               color := tObj.color, frameIdx := frameIdx, mask := mask })

/-- `SAM2VideoPredictor.add_object_with_box` (lines 579-660). -/
def addObjectWithBox (st : SamService) (now : Nat) (sid : String)
    (frameIdx : Int) (objectId : Int) (box : Int × Int × Int × Int)
    (name category : String) (seg : Except String (List (List Int))) :
    SamService × Except PyErr AddResult :=
  match getSession st now sid with
  | (st1, none) => (st1, .error (.valueError ("Session not found: " ++ sid)))
  | (st1, some s) =>
    if frameIdx < 0 ∨ (s.totalFrames : Int) ≤ frameIdx then
      (st1, .error (.valueError ("Invalid frame index: " ++ toString frameIdx)))
    else
      let colorIdx := s.objects.length % OBJECT_COLORS.length
      let baseObj : TrackedObject :=
        { objectId := objectId
          name := if name = "" then "Object " ++ toString objectId else name
          category := category
          color := OBJECT_COLORS.getD colorIdx (255, 0, 0)
          prompts := [{ frameIdx := frameIdx, box := some box, kind := .initialBox }] }
      if st1.cfg.predictorLoaded && s.hasInferenceState then
        match seg with
        | .error e => (st1, .error (.externalError e))
        | .ok logits =>
          let mask := binarizeLogits logits
          let tObj := { baseObj with masks := [(frameIdx, mask)] }
          (storeObject st1 sid s objectId tObj,
           .ok { objectId := objectId, name := tObj.name, category := category,
                 color := tObj.color, frameIdx := frameIdx, mask := mask })
      else
        let mask := simulateBoxMask s.frameHeight s.frameWidth box
        let tObj := { baseObj with masks := [(frameIdx, mask)] }
        (storeObject st1 sid s objectId tObj,
         .ok { objectId := objectId, name := tObj.name, category := category,
               color := tObj.color, frameIdx := frameIdx, mask := mask })

/-- `SAM2VideoPredictor.refine_mask` (lines 782-863).  The session and the
object must exist; the frame index is NOT validated.  The refinement prompt
is appended to the object's prompt list before the Segmenter is called, so
it persists even if the Segmenter raises. -/
def refineMask (st : SamService) (now : Nat) (sid : String) (frameIdx : Int)
    (objectId : Int) (points : List (Int × Int)) (labels : List Int)
    (seg : Except String (List (List Int))) :
    SamService × Except PyErr MaskResult :=
  match getSession st now sid with
  | (st1, none) => (st1, .error (.valueError ("Session not found: " ++ sid)))
  | (st1, some s) =>
    match lookupA objectId s.objects with
    | none =>
      (st1, .error (.valueError ("Object not found: " ++ toString objectId)))
    | some tObj =>
      let tObj1 :=
        { tObj with prompts := tObj.prompts ++
            [{ frameIdx := frameIdx, points := points, labels := labels,
               kind := .refinement }] }
      if st1.cfg.predictorLoaded && s.hasInferenceState then
        match seg with
        | .error e =>
          (storeObject st1 sid s objectId tObj1, .error (.externalError e))
        | .ok logits =>
          let mask := binarizeLogits logits
          let tObj2 := { tObj1 with masks := insertA frameIdx mask tObj1.masks }
          (storeObject st1 sid s objectId tObj2,
           .ok { objectId := objectId, frameIdx := frameIdx, mask := mask })
      else
        let existing :=
          (lookupA frameIdx tObj.masks).getD (zerosMask s.frameHeight s.frameWidth)
        let mask := applyRefinementSimulation existing points labels
        let tObj2 := { tObj1 with masks := insertA frameIdx mask tObj1.masks }
        (storeObject st1 sid s objectId tObj2,
         .ok { objectId := objectId, frameIdx := frameIdx, mask := mask })

/-- An uploaded mask as `update_mask` receives it after PNG decoding:
2-D (`ndim == 2`) or 3-D RGB/RGBA (`ndim == 3`, first channel taken).
Other ranks, which raise `ValueError`, are not representable here. -/
inductive UserMask
  | gray (m : Mask2D)
  | rgb (m : List (List (List Nat)))
deriving DecidableEq

/-- The RGB→grayscale step of `update_mask` (lines 896-902):
`mask = mask[:, :, 0]` for 3-D input. -/
def toGray : UserMask → Mask2D
  | .gray m => m
  | .rgb m => m.map fun row => row.map fun px => px.headD 0

/-- `mask.shape == (h, w)`. -/
def gridShapeEq (m : Mask2D) (h w : Nat) : Bool :=
  (m.length == h) && m.all fun row => row.length == w

/-- The final normalization of `update_mask` (line 920):
`((mask > 128) * 255).astype(np.uint8)`. -/
def threshold128 (m : Mask2D) : Mask2D :=
  m.map fun row => row.map fun v => if 128 < v then 255 else 0

/-- The normalization pipeline of `update_mask` (lines 896-920) on uint8
input (PNG-decoded masks are uint8, so the `(mask * 255)` rescale for other
dtypes is skipped): grayscale, resize to the working dimensions if the
shape differs (`resizeFn` stands for the external PIL LANCZOS resize,
called as `resize((width, height))`), then threshold at 128 to {0, 255}. -/
def normalizeUserMask (resizeFn : Mask2D → Nat → Nat → Mask2D) (um : UserMask)
    (h w : Nat) : Mask2D :=
  let gray := toGray um
  let resized := if gridShapeEq gray h w then gray else resizeFn gray w h
  threshold128 resized

/-- `SAM2VideoPredictor.update_mask` (lines 865-954).  The normalized mask
is written into the tracked object's `masks` dict (line 923) BEFORE the
injection into the SAM2 inference state is attempted; if the injection
(`inject = .error e`) fails, a `ValueError` is raised but the stored mask is
not rolled back. -/
def updateMask (st : SamService) (now : Nat) (sid : String) (frameIdx : Int)
    (objectId : Int) (um : UserMask) (resizeFn : Mask2D → Nat → Nat → Mask2D)
    (inject : Except String Unit) :
    SamService × Except PyErr MaskResult :=
  match getSession st now sid with
  | (st1, none) => (st1, .error (.valueError ("Session not found: " ++ sid)))
  | (st1, some s) =>
    match lookupA objectId s.objects with
    | none =>
      (st1, .error (.valueError ("Object not found: " ++ toString objectId)))
    | some tObj =>
      let mask := normalizeUserMask resizeFn um s.frameHeight s.frameWidth
      let tObj1 := { tObj with masks := insertA frameIdx mask tObj.masks }
      let st2 := storeObject st1 sid s objectId tObj1
      if st1.cfg.predictorLoaded && s.hasInferenceState then
        match inject with
        | .ok _ => (st2, .ok { objectId := objectId, frameIdx := frameIdx, mask := mask })
        | .error e =>
          (st2, .error (.valueError
            ("Failed to inject mask into SAM2 inference state: " ++ e)))
      else
        (st2, .ok { objectId := objectId, frameIdx := frameIdx, mask := mask })

/-! ## Reachable predictor states -/

/-- States of the predictor reachable from a freshly constructed instance
through the public session/object API (with arbitrary clock values, fresh
ids and Segmenter outcomes at every call). -/
inductive Reachable : SamService → Prop
  | init (cfg : Config) : Reachable (SamService.init cfg)
  | create {st : SamService} (now : Nat) (sid dir : String) (vid : Video)
      (h : Reachable st) : Reachable (createSession st now sid dir vid).1
  | getS {st : SamService} (now : Nat) (sid : String) (h : Reachable st) :
      Reachable (getSession st now sid).1
  | close {st : SamService} (sid : String) (h : Reachable st) :
      Reachable (closeSession st sid)
  | sweep {st : SamService} (now : Nat) (h : Reachable st) :
      Reachable (cleanupExpiredSessions st now).1
  | add {st : SamService} (now : Nat) (sid : String) (frameIdx objectId : Int)
      (points : List (Int × Int)) (labels : List Int) (name category : String)
      (seg : Except String (List (List Int))) (h : Reachable st) :
      Reachable (addObject st now sid frameIdx objectId points labels name category seg).1
  | addBox {st : SamService} (now : Nat) (sid : String) (frameIdx objectId : Int)
      (box : Int × Int × Int × Int) (name category : String)
      (seg : Except String (List (List Int))) (h : Reachable st) :
      Reachable (addObjectWithBox st now sid frameIdx objectId box name category seg).1
  | refine {st : SamService} (now : Nat) (sid : String) (frameIdx objectId : Int)
      (points : List (Int × Int)) (labels : List Int)
      (seg : Except String (List (List Int))) (h : Reachable st) :
      Reachable (refineMask st now sid frameIdx objectId points labels seg).1
  | update {st : SamService} (now : Nat) (sid : String) (frameIdx objectId : Int)
      (um : UserMask) (resizeFn : Mask2D → Nat → Nat → Mask2D)
      (inject : Except String Unit) (h : Reachable st) :
      Reachable (updateMask st now sid frameIdx objectId um resizeFn inject).1

/-! ## Concrete scenarios used to exercise the model -/

/-- Simulation mode (`initialize()` failed, `self.predictor is None`). -/
def cfgSim : Config := { predictorLoaded := false }

/-- Model loaded (`self.predictor is not None`). -/
def cfgLoaded : Config := { predictorLoaded := true }

/-- A readable 3-frame 4×4 video. -/
def vidSmall : Video :=
  { path := "small.mp4", openable := true, frames := [10, 11, 12], fps := 30,
    width := 4, height := 4 }

/-- A readable 2-frame 2×2 video. -/
def vidTiny : Video :=
  { path := "tiny.mp4", openable := true, frames := [1, 2], fps := 30,
    width := 2, height := 2 }

/-- Simulation-mode service with one open session `"sid"`. -/
def stSim0 : SamService :=
  (createSession (SamService.init cfgSim) 0 "sid" "dir0" vidSmall).1

/-- `stSim0` after `add_object(frame_idx=0, object_id=5, points=[(1,1)], labels=[1])`. -/
def stSim1 : SamService :=
  (addObject stSim0 1 "sid" 0 5 [(1, 1)] [1] "" "" (.ok [])).1

/-- Loaded-mode service with one open session `"L"`. -/
def stLoad0 : SamService :=
  (createSession (SamService.init cfgLoaded) 0 "L" "dirL" vidTiny).1

/-- `stLoad0` after adding object 7 on frame 0, the Segmenter returning a
single positive logit at pixel (0, 0). -/
def stLoad1 : SamService :=
  (addObject stLoad0 1 "L" 0 7 [(0, 0)] [1] "" "" (.ok [[1, 0], [0, 0]])).1

/-- The mask `add_object` computes in `stSim1`'s scenario: simulation radius
`min(4, 4) // 10 = 0`, so only the clicked pixel (1, 1) is set — to 1. -/
def maskS5 : Mask2D :=
  [[0, 0, 0, 0], [0, 1, 0, 0], [0, 0, 0, 0], [0, 0, 0, 0]]

/-- The tracked object held by `stSim1` for object id 5. -/
def objS5 : TrackedObject :=
  { objectId := 5, name := "Object 5", category := "", color := (255, 0, 0),
    prompts := [{ frameIdx := 0, points := [(1, 1)], labels := [1], kind := .initial }],
    masks := [(0, maskS5)] }

/-- The session held by `stSim1` under id `"sid"`. -/
def sessS1 : VideoSession :=
  { sessionId := "sid", videoPath := "small.mp4", videoFrames := [10, 11, 12],
    frameWidth := 4, frameHeight := 4, totalFrames := 3, fps := 30,
    framesDir := some "dir0", objects := [(5, objS5)],
    hasInferenceState := false, createdAt := 0, lastAccessed := 1 }

/-- The session held by `stSim0` under id `"sid"` (before the add). -/
def sessS0 : VideoSession := { sessS1 with objects := [], lastAccessed := 0 }

/-- The tracked object held by `stLoad1` for object id 7. -/
def objL : TrackedObject :=
  { objectId := 7, name := "Object 7", category := "", color := (255, 0, 0),
    prompts := [{ frameIdx := 0, points := [(0, 0)], labels := [1], kind := .initial }],
    masks := [(0, [[1, 0], [0, 0]])] }

/-- The session held by `stLoad1` under id `"L"`. -/
def sessL : VideoSession :=
  { sessionId := "L", videoPath := "tiny.mp4", videoFrames := [1, 2],
    frameWidth := 2, frameHeight := 2, totalFrames := 2, fps := 30,
    framesDir := some "dirL", objects := [(7, objL)],
    hasInferenceState := true, createdAt := 0, lastAccessed := 1 }

/-- A simulation-mode configuration capping videos at 2 frames. -/
def cfgTrunc : Config := { predictorLoaded := false, maxVideoFrames := 2 }

/-- A job manager with two workers and no jobs. -/
def jmgr0 : JobMgr := { executor := { maxWorkers := 2 } }

/-- `jmgr0` after submitting jobs `"a"` and `"b"`: both workers are busy. -/
def jmgr2busy : JobMgr :=
  (submitJob (submitJob jmgr0 0 "a" "propagate_masks" []).1 1 "b" "propagate_masks" []).1

/-- A manager whose single job `"j"` has completed. -/
def jmgrDone : JobMgr :=
  executeJobFinish (submitJob jmgr0 0 "j" "propagate_masks" []).1 5 "j"
    (.ok [("session_id", 1), ("frames", 9), ("total_frames", 2)])

/-! ## Association-list lemmas -/

theorem lookupA_insertA_self {α β : Type} [DecidableEq α] (k : α) (v : β)
    (l : List (α × β)) : lookupA k (insertA k v l) = some v := by
  induction l with
  | nil => simp [insertA, lookupA]
  | cons hd tl ih =>
    obtain ⟨k', v'⟩ := hd
    by_cases h : k' = k
    · subst h; simp [insertA, lookupA]
    · simp [insertA, lookupA, h, ih]

theorem lookupA_removeA_self {α β : Type} [DecidableEq α] (k : α)
    (l : List (α × β)) : lookupA k (removeA k l) = none := by
  induction l with
  | nil => simp [removeA, lookupA]
  | cons hd tl ih =>
    obtain ⟨k', v'⟩ := hd
    by_cases h : k' = k
    · simpa [removeA, h] using ih
    · simp [removeA, lookupA, h, ih]

theorem length_insertA_of_lookupA {α β : Type} [DecidableEq α] (k : α) (v v' : β)
    (l : List (α × β)) (h : lookupA k l = some v') :
    (insertA k v l).length = l.length := by
  induction l with
  | nil => simp [lookupA] at h
  | cons hd tl ih =>
    obtain ⟨k', v''⟩ := hd
    by_cases hk : k' = k
    · simp [insertA, hk]
    · simp only [lookupA, if_neg hk] at h
      simp [insertA, hk, ih h]

theorem length_insertA_le {α β : Type} [DecidableEq α] (k : α) (v : β)
    (l : List (α × β)) : (insertA k v l).length ≤ l.length + 1 := by
  induction l with
  | nil => simp [insertA]
  | cons hd tl ih =>
    obtain ⟨k', v'⟩ := hd
    by_cases hk : k' = k
    · simp [insertA, hk]
    · simp only [insertA, if_neg hk, List.length_cons]
      omega

theorem length_removeA_le {α β : Type} [DecidableEq α] (k : α)
    (l : List (α × β)) : (removeA k l).length ≤ l.length := by
  induction l with
  | nil => simp [removeA]
  | cons hd tl ih =>
    obtain ⟨k', v'⟩ := hd
    by_cases hk : k' = k
    · simp only [removeA, if_pos hk, List.length_cons]
      omega
    · simp only [removeA, if_neg hk, List.length_cons]
      omega

theorem lookupA_singleton {α β : Type} [DecidableEq α] (k : α) (v : β) :
    lookupA k [(k, v)] = some v := by
  simp [lookupA]

/-! ## Mask lemmas -/

theorem mem_mapIdx_ex {α β : Type} {f : Nat → α → β} {l : List α} {b : β}
    (h : b ∈ l.mapIdx f) : ∃ i a, a ∈ l ∧ b = f i a := by
  rw [List.mapIdx_eq_enum_map] at h
  obtain ⟨⟨i, a⟩, hmem, rfl⟩ := List.mem_map.mp h
  exact ⟨i, a, List.snd_mem_of_mem_enum hmem, rfl⟩

theorem maskValsIn_zerosMask (h w : Nat) {S : List Nat} (h0 : 0 ∈ S) :
    maskValsIn (zerosMask h w) S := by
  intro row hrow v hv
  have : row = List.replicate w 0 := List.eq_of_mem_replicate hrow
  subst this
  have := List.eq_of_mem_replicate hv
  subst this
  exact h0

theorem maskValsIn_drawCircle {m : Mask2D} {S : List Nat} (hm : maskValsIn m S)
    {v : Nat} (hv : v ∈ S) (x y : Int) (radius : Nat) :
    maskValsIn (drawCircle m x y radius v) S := by
  intro row hrow u hu
  obtain ⟨r, row₀, hrow₀, rfl⟩ := mem_mapIdx_ex hrow
  obtain ⟨c, pix, hpix, rfl⟩ := mem_mapIdx_ex hu
  split
  · exact hv
  · exact hm row₀ hrow₀ pix hpix

theorem maskValsIn_drawRect {m : Mask2D} {S : List Nat} (hm : maskValsIn m S)
    {v : Nat} (hv : v ∈ S) (x1 y1 x2 y2 : Int) :
    maskValsIn (drawRect m x1 y1 x2 y2 v) S := by
  intro row hrow u hu
  obtain ⟨r, row₀, hrow₀, rfl⟩ := mem_mapIdx_ex hrow
  obtain ⟨c, pix, hpix, rfl⟩ := mem_mapIdx_ex hu
  split
  · exact hv
  · exact hm row₀ hrow₀ pix hpix

theorem maskValsIn_circleFold {S : List Nat} (h0 : 0 ∈ S) (h1 : 1 ∈ S)
    (radius : Nat) (pls : List ((Int × Int) × Int)) :
    ∀ {m : Mask2D}, maskValsIn m S →
      maskValsIn
        (pls.foldl
          (fun m pl => drawCircle m pl.1.1 pl.1.2 radius (if pl.2 = 1 then 1 else 0)) m)
        S := by
  induction pls with
  | nil => intro m hm; exact hm
  | cons pl rest ih =>
    intro m hm
    refine ih (maskValsIn_drawCircle hm ?_ _ _ _)
    by_cases h : pl.2 = 1 <;> simp [h, h0, h1]

theorem maskValsIn_simulateMask (fh fw : Nat) (points : List (Int × Int))
    (labels : List Int) :
    maskValsIn (simulateMask fh fw points labels) [0, 1] := by
  unfold simulateMask
  exact maskValsIn_circleFold (by simp) (by simp) _ _
    (maskValsIn_zerosMask fh fw (by simp))

theorem maskValsIn_applyRefinementSimulation {m : Mask2D}
    (hm : maskValsIn m [0, 1]) (points : List (Int × Int)) (labels : List Int) :
    maskValsIn (applyRefinementSimulation m points labels) [0, 1] := by
  unfold applyRefinementSimulation
  exact maskValsIn_circleFold (by simp) (by simp) _ _ hm

theorem maskValsIn_binarizeLogits (logits : List (List Int)) :
    maskValsIn (binarizeLogits logits) [0, 1] := by
  intro row hrow v hv
  obtain ⟨row₀, hrow₀, rfl⟩ := List.mem_map.mp hrow
  obtain ⟨u, hu, rfl⟩ := List.mem_map.mp hv
  by_cases h : (0 : Int) < u <;> simp [h]

theorem maskValsIn_encodeMaskPixels {m : Mask2D} {S : List Nat}
    (hm : maskValsIn m S) (h0 : 0 ∈ S) :
    maskValsIn (encodeMaskPixels m) S := by
  unfold encodeMaskPixels
  split
  · exact maskValsIn_zerosMask 480 640 h0
  · exact hm

theorem gridShape_zerosMask (h w : Nat) : gridShape (zerosMask h w) h w := by
  constructor
  · simp [zerosMask]
  · intro row hrow
    have := List.eq_of_mem_replicate hrow
    subst this
    simp

theorem gridShape_drawCircle {m : Mask2D} {h w : Nat} (hm : gridShape m h w)
    (x y : Int) (radius v : Nat) : gridShape (drawCircle m x y radius v) h w := by
  constructor
  · simpa [drawCircle, List.length_mapIdx] using hm.1
  · intro row hrow
    obtain ⟨r, row₀, hrow₀, rfl⟩ := mem_mapIdx_ex hrow
    simpa [List.length_mapIdx] using hm.2 row₀ hrow₀

theorem gridShape_drawRect {m : Mask2D} {h w : Nat} (hm : gridShape m h w)
    (x1 y1 x2 y2 : Int) (v : Nat) : gridShape (drawRect m x1 y1 x2 y2 v) h w := by
  constructor
  · simpa [drawRect, List.length_mapIdx] using hm.1
  · intro row hrow
    obtain ⟨r, row₀, hrow₀, rfl⟩ := mem_mapIdx_ex hrow
    simpa [List.length_mapIdx] using hm.2 row₀ hrow₀

theorem gridShape_circleFold {h w : Nat} (radius : Nat)
    (pls : List ((Int × Int) × Int)) :
    ∀ {m : Mask2D}, gridShape m h w →
      gridShape
        (pls.foldl
          (fun m pl => drawCircle m pl.1.1 pl.1.2 radius (if pl.2 = 1 then 1 else 0)) m)
        h w := by
  induction pls with
  | nil => intro m hm; exact hm
  | cons pl rest ih =>
    intro m hm
    exact ih (gridShape_drawCircle hm _ _ _ _)

theorem gridShape_simulateMask (fh fw : Nat) (points : List (Int × Int))
    (labels : List Int) : gridShape (simulateMask fh fw points labels) fh fw := by
  unfold simulateMask
  exact gridShape_circleFold _ _ (gridShape_zerosMask fh fw)

theorem gridShape_simulateBoxMask (fh fw : Nat) (box : Int × Int × Int × Int) :
    gridShape (simulateBoxMask fh fw box) fh fw :=
  gridShape_drawRect (gridShape_zerosMask fh fw) _ _ _ _ _

theorem gridShape_binarizeLogits {logits : List (List Int)} {h w : Nat}
    (hl : gridShape logits h w) : gridShape (binarizeLogits logits) h w := by
  constructor
  · simpa [binarizeLogits] using hl.1
  · intro row hrow
    obtain ⟨row₀, hrow₀, rfl⟩ := List.mem_map.mp hrow
    simpa using hl.2 row₀ hrow₀

theorem maskValsIn_simulateBoxMask (fh fw : Nat) (box : Int × Int × Int × Int) :
    maskValsIn (simulateBoxMask fh fw box) [0, 1] :=
  maskValsIn_drawRect (maskValsIn_zerosMask fh fw (by simp)) (by simp) _ _ _ _

/-! ## Frame-loading lemmas -/

theorem readFrames_eq_take (maxF : Nat) (l : List Nat) :
    ∀ c, readFrames maxF l c = l.take (maxF - c) := by
  induction l with
  | nil => intro c; simp [readFrames]
  | cons f rest ih =>
    intro c
    by_cases h : maxF ≤ c
    · have : maxF - c = 0 := by omega
      simp [readFrames, h, this]
    · have hda : maxF - c = (maxF - (c + 1)) + 1 := by omega
      simp [readFrames, h, hda, ih (c + 1)]

/-! ## Predictor-state lemmas -/

theorem getSession_none {st : SamService} {sid : String} (now : Nat)
    (h : lookupA sid st.sessions = none) : getSession st now sid = (st, none) := by
  unfold getSession
  rw [h]

theorem getSession_some {st : SamService} {sid : String} {s : VideoSession}
    (now : Nat) (h : lookupA sid st.sessions = some s) :
    getSession st now sid =
      ({ st with sessions := insertA sid { s with lastAccessed := now } st.sessions },
       some { s with lastAccessed := now }) := by
  unfold getSession
  rw [h]

theorem closeSession_cfg (st : SamService) (sid : String) :
    (closeSession st sid).cfg = st.cfg := by
  unfold closeSession
  cases lookupA sid st.sessions with
  | none => rfl
  | some s => rfl

theorem closeSession_length_le (st : SamService) (sid : String) :
    (closeSession st sid).sessions.length ≤ st.sessions.length := by
  unfold closeSession
  cases lookupA sid st.sessions with
  | none => exact le_refl _
  | some s => exact length_removeA_le _ _

theorem foldlClose_cfg (ids : List String) :
    ∀ st : SamService, (ids.foldl closeSession st).cfg = st.cfg := by
  induction ids with
  | nil => intro st; rfl
  | cons i rest ih =>
    intro st
    simpa [List.foldl_cons, closeSession_cfg] using
      (ih (closeSession st i)).trans (closeSession_cfg st i)

theorem foldlClose_length_le (ids : List String) :
    ∀ st : SamService,
      (ids.foldl closeSession st).sessions.length ≤ st.sessions.length := by
  induction ids with
  | nil => intro st; exact le_refl _
  | cons i rest ih =>
    intro st
    exact (ih (closeSession st i)).trans (closeSession_length_le st i)

theorem cleanup_cfg (st : SamService) (now : Nat) :
    (cleanupExpiredSessions st now).1.cfg = st.cfg :=
  foldlClose_cfg _ st

theorem cleanup_length_le (st : SamService) (now : Nat) :
    (cleanupExpiredSessions st now).1.sessions.length ≤ st.sessions.length :=
  foldlClose_length_le _ st

theorem getSession_cfg (st : SamService) (now : Nat) (sid : String) :
    (getSession st now sid).1.cfg = st.cfg := by
  unfold getSession
  cases lookupA sid st.sessions with
  | none => rfl
  | some s => rfl

theorem getSession_length (st : SamService) (now : Nat) (sid : String) :
    (getSession st now sid).1.sessions.length = st.sessions.length := by
  unfold getSession
  cases h : lookupA sid st.sessions with
  | none => rfl
  | some s => exact length_insertA_of_lookupA _ _ _ _ h

theorem length_insert_insert {sid : String} {st : SamService}
    {s₀ s₁ s₂ : VideoSession} (h : lookupA sid st.sessions = some s₀) :
    (insertA sid s₂ (insertA sid s₁ st.sessions)).length = st.sessions.length := by
  rw [length_insertA_of_lookupA sid s₂ s₁ _ (lookupA_insertA_self sid s₁ st.sessions),
    length_insertA_of_lookupA sid s₁ s₀ _ h]

theorem addObject_sessions (st : SamService) (now : Nat) (sid : String)
    (frameIdx objectId : Int) (points : List (Int × Int)) (labels : List Int)
    (name category : String) (seg : Except String (List (List Int))) :
    (addObject st now sid frameIdx objectId points labels name category seg).1.sessions.length
        = st.sessions.length ∧
      (addObject st now sid frameIdx objectId points labels name category seg).1.cfg
        = st.cfg := by
  unfold addObject
  cases h : lookupA sid st.sessions with
  | none => rw [getSession_none now h]; exact ⟨rfl, rfl⟩
  | some s =>
    rw [getSession_some now h]
    dsimp only
    split
    · exact ⟨length_insertA_of_lookupA _ _ _ _ h, rfl⟩
    · split
      · split
        · exact ⟨length_insertA_of_lookupA _ _ _ _ h, rfl⟩
        · exact ⟨length_insert_insert h, rfl⟩
      · exact ⟨length_insert_insert h, rfl⟩

theorem addObjectWithBox_sessions (st : SamService) (now : Nat) (sid : String)
    (frameIdx objectId : Int) (box : Int × Int × Int × Int)
    (name category : String) (seg : Except String (List (List Int))) :
    (addObjectWithBox st now sid frameIdx objectId box name category seg).1.sessions.length
        = st.sessions.length ∧
      (addObjectWithBox st now sid frameIdx objectId box name category seg).1.cfg
        = st.cfg := by
  unfold addObjectWithBox
  cases h : lookupA sid st.sessions with
  | none => rw [getSession_none now h]; exact ⟨rfl, rfl⟩
  | some s =>
    rw [getSession_some now h]
    dsimp only
    split
    · exact ⟨length_insertA_of_lookupA _ _ _ _ h, rfl⟩
    · split
      · split
        · exact ⟨length_insertA_of_lookupA _ _ _ _ h, rfl⟩
        · exact ⟨length_insert_insert h, rfl⟩
      · exact ⟨length_insert_insert h, rfl⟩

theorem refineMask_sessions (st : SamService) (now : Nat) (sid : String)
    (frameIdx objectId : Int) (points : List (Int × Int)) (labels : List Int)
    (seg : Except String (List (List Int))) :
    (refineMask st now sid frameIdx objectId points labels seg).1.sessions.length
        = st.sessions.length ∧
      (refineMask st now sid frameIdx objectId points labels seg).1.cfg = st.cfg := by
  unfold refineMask
  cases h : lookupA sid st.sessions with
  | none => rw [getSession_none now h]; exact ⟨rfl, rfl⟩
  | some s =>
    rw [getSession_some now h]
    dsimp only
    split
    · exact ⟨length_insertA_of_lookupA _ _ _ _ h, rfl⟩
    · split
      · split
        · exact ⟨length_insert_insert h, rfl⟩
        · exact ⟨length_insert_insert h, rfl⟩
      · exact ⟨length_insert_insert h, rfl⟩

theorem updateMask_sessions (st : SamService) (now : Nat) (sid : String)
    (frameIdx objectId : Int) (um : UserMask)
    (resizeFn : Mask2D → Nat → Nat → Mask2D) (inject : Except String Unit) :
    (updateMask st now sid frameIdx objectId um resizeFn inject).1.sessions.length
        = st.sessions.length ∧
      (updateMask st now sid frameIdx objectId um resizeFn inject).1.cfg = st.cfg := by
  unfold updateMask
  cases h : lookupA sid st.sessions with
  | none => rw [getSession_none now h]; exact ⟨rfl, rfl⟩
  | some s =>
    rw [getSession_some now h]
    dsimp only
    split
    · exact ⟨length_insertA_of_lookupA _ _ _ _ h, rfl⟩
    · split
      · split
        · exact ⟨length_insert_insert h, rfl⟩
        · exact ⟨length_insert_insert h, rfl⟩
      · exact ⟨length_insert_insert h, rfl⟩

/-- The session-count admission invariant. -/
def SessInv (st : SamService) : Prop :=
  st.sessions.length ≤ st.cfg.maxConcurrentSessions

theorem createSessionCore_inv {st : SamService} (now : Nat) (sid dir : String)
    (vid : Video) (h : st.sessions.length < st.cfg.maxConcurrentSessions) :
    SessInv (createSessionCore st now sid dir vid).1 := by
  unfold createSessionCore
  cases loadVideoFrames st.cfg vid with
  | error e => exact le_of_lt h
  | ok p =>
    obtain ⟨frames, w, hh, fps⟩ := p
    unfold SessInv
    calc (insertA sid _ st.sessions).length ≤ st.sessions.length + 1 :=
          length_insertA_le _ _ _
      _ ≤ st.cfg.maxConcurrentSessions := h

theorem createSession_inv {st : SamService} (now : Nat) (sid dir : String)
    (vid : Video) (h : SessInv st) :
    SessInv (createSession st now sid dir vid).1 := by
  unfold createSession
  split
  · have hcfg := cleanup_cfg st now
    have hlen := cleanup_length_le st now
    dsimp only
    split
    · unfold SessInv
      rw [hcfg]
      exact hlen.trans h
    · rename_i hlt
      rw [hcfg] at hlt
      exact createSessionCore_inv now sid dir vid (by rw [hcfg]; omega)
  · rename_i hlt
    exact createSessionCore_inv now sid dir vid (by omega)

theorem reachable_sessInv {st : SamService} (h : Reachable st) : SessInv st := by
  induction h with
  | init cfg => exact Nat.zero_le _
  | create now sid dir vid _ ih => exact createSession_inv now sid dir vid ih
  | getS now sid _ ih =>
    unfold SessInv
    rw [getSession_length, getSession_cfg]
    exact ih
  | close sid _ ih =>
    unfold SessInv
    rw [closeSession_cfg]
    exact (closeSession_length_le _ _).trans ih
  | sweep now _ ih =>
    unfold SessInv
    rw [cleanup_cfg]
    exact (cleanup_length_le _ _).trans ih
  | add now sid f oid pts lbls nm cat seg _ ih =>
    unfold SessInv
    rw [(addObject_sessions _ _ _ _ _ _ _ _ _ _).1,
      (addObject_sessions _ _ _ _ _ _ _ _ _ _).2]
    exact ih
  | addBox now sid f oid box nm cat seg _ ih =>
    unfold SessInv
    rw [(addObjectWithBox_sessions _ _ _ _ _ _ _ _ _).1,
      (addObjectWithBox_sessions _ _ _ _ _ _ _ _ _).2]
    exact ih
  | refine now sid f oid pts lbls seg _ ih =>
    unfold SessInv
    rw [(refineMask_sessions _ _ _ _ _ _ _ _).1,
      (refineMask_sessions _ _ _ _ _ _ _ _).2]
    exact ih
  | update now sid f oid um rf inj _ ih =>
    unfold SessInv
    rw [(updateMask_sessions _ _ _ _ _ _ _ _).1,
      (updateMask_sessions _ _ _ _ _ _ _ _).2]
    exact ih

theorem closeSession_unknown {st : SamService} {sid : String}
    (h : lookupA sid st.sessions = none) : closeSession st sid = st := by
  unfold closeSession
  rw [h]

theorem lookupA_closeSession_self (st : SamService) (sid : String) :
    lookupA sid (closeSession st sid).sessions = none := by
  unfold closeSession
  cases h : lookupA sid st.sessions with
  | none => exact h
  | some s => exact lookupA_removeA_self sid st.sessions

/-! ## Claim theorems -/

/-- C4 (code bug): the claim — matching the spec and the `PENDING` status the
code itself defines — says a job submitted while every worker of the bounded
pool is busy is observed `pending` until a worker actually begins executing
it.  The code instead flips the job to `running` and stamps `started_at`
inside `submit_job` itself (job_manager.py lines 165-167).  Concretely: with
both workers of a 2-worker pool already running jobs "a" and "b", submitting
job "c" leaves its task waiting in the executor's queue — no worker is
executing it — yet `get_job("c")` already reports `running` with
`started_at` set, never `pending`. -/
theorem C4_submit_full_pool_marks_running :
    (submitJob jmgr2busy 2 "c" "propagate_masks" []).1.executor.running = ["a", "b"] ∧
    (submitJob jmgr2busy 2 "c" "propagate_masks" []).1.executor.queued = ["c"] ∧
    ((getJob (submitJob jmgr2busy 2 "c" "propagate_masks" []).1 "c").map Job.status
      = some .running) ∧
    ((getJob (submitJob jmgr2busy 2 "c" "propagate_masks" []).1 "c").map Job.startedAt
      = some (some 2)) ∧
    ((getJob (submitJob jmgr2busy 2 "c" "propagate_masks" []).1 "c").map Job.status
      ≠ some .pending) := by
  refine ⟨rfl, rfl, rfl, rfl, by decide⟩

/-- C5 counterexample: the claim says `status = completed ⇒ progress = 100`
and that no field of a terminal job changes under any subsequent operation,
including `UpdateProgress`.  But `update_progress` has no terminal-status
guard: applied to the completed job "j" (progress 100) it changes its
progress to 50 while the status stays `completed`. -/
theorem C5_counterexample :
    ((getJob jmgrDone "j").map Job.status = some .completed) ∧
    ((getJob jmgrDone "j").map Job.progress = some 100) ∧
    ((getJob (updateProgress jmgrDone "j" 50) "j").map Job.status = some .completed) ∧
    ((getJob (updateProgress jmgrDone "j" 50) "j").map Job.progress = some 50) ∧
    (50 : ℚ) ≠ 100 := by
  refine ⟨rfl, rfl, by decide, by decide, by norm_num⟩

/-- C5 as amended: at the moment `_execute_job` makes a job terminal the
invariants hold — a completed job has `progress = 100` (and the sanitized
result), a failed job carries the raised exception's message in `error` —
and `update_progress` changes only the `progress` field (clamped to
[0, 100]), never status, error, result, timestamps, id, type or params.
The original claim's further conjunct — that a terminal job's fields never
change under `UpdateProgress` — is false, since `update_progress` will
overwrite the progress of a terminal job (see the counterexample). -/
theorem C5_job_terminal_invariants (m : JobMgr) (now : Nat) (jid : String)
    (j : Job) (hj : lookupA jid m.jobs = some j) (p : ℚ) (r : ResultDict)
    (msg : String) :
    getJob (executeJobFinish m now jid (.ok r)) jid =
      some { j with status := .completed, completedAt := some now,
                    progress := 100, result := some (sanitizeResult r) } ∧
    getJob (executeJobFinish m now jid (.error msg)) jid =
      some { j with status := .failed, completedAt := some now,
                    error := some msg } ∧
    getJob (updateProgress m jid p) jid =
      some { j with progress := max 0 (min 100 p) } := by
  refine ⟨?_, ?_, ?_⟩
  · unfold executeJobFinish getJob
    rw [hj]
    exact lookupA_insertA_self _ _ _
  · unfold executeJobFinish getJob
    rw [hj]
    exact lookupA_insertA_self _ _ _
  · unfold updateProgress getJob
    rw [hj]
    exact lookupA_insertA_self _ _ _

/-- Witness for C5's amended theorem at a concrete one-job manager. -/
theorem C5_witness :
    getJob (executeJobFinish (submitJob jmgr0 0 "x" "t" []).1 4 "x"
        (.ok [("session_id", 1), ("frames", 9)])) "x" =
      some { jobId := "x", jobType := "t", status := .completed, createdAt := 0,
             startedAt := some 0, completedAt := some 4, progress := 100,
             result := some [("session_id", 1)], error := none, params := [] } ∧
    getJob (executeJobFinish (submitJob jmgr0 0 "x" "t" []).1 4 "x"
        (.error "boom")) "x" =
      some { jobId := "x", jobType := "t", status := .failed, createdAt := 0,
             startedAt := some 0, completedAt := some 4, progress := 0,
             result := none, error := some "boom", params := [] } ∧
    getJob (updateProgress (submitJob jmgr0 0 "x" "t" []).1 "x" 150) "x" =
      some { jobId := "x", jobType := "t", status := .running, createdAt := 0,
             startedAt := some 0, completedAt := none, progress := 100,
             result := none, error := none, params := [] } := by
  have h := C5_job_terminal_invariants (submitJob jmgr0 0 "x" "t" []).1 4 "x"
    { jobId := "x", jobType := "t", status := .running, createdAt := 0,
      startedAt := some 0 } (by decide) 150 [("session_id", 1), ("frames", 9)] "boom"
  refine ⟨?_, ?_, ?_⟩
  · exact h.1.trans (by decide)
  · exact h.2.1.trans (by decide)
  · exact h.2.2.trans (by decide)

/-- C9: `close_session` on an id that is not in the manager is a complete
no-op — the session table, every session's contents and the set of scratch
directories are all unchanged and no error is raised (the predictor state is
returned as-is) — and `close_session` is idempotent: closing twice equals
closing once. -/
theorem C9_close_noop_idempotent (st : SamService) (sid : String) :
    (lookupA sid st.sessions = none → closeSession st sid = st) ∧
    closeSession (closeSession st sid) sid = closeSession st sid :=
  ⟨fun h => closeSession_unknown h,
   closeSession_unknown (lookupA_closeSession_self st sid)⟩

/-- Witness for C9 on a concrete state holding one session. -/
theorem C9_witness :
    (lookupA "nosuch" stSim0.sessions = none → closeSession stSim0 "nosuch" = stSim0) ∧
    closeSession (closeSession stSim0 "nosuch") "nosuch" =
      closeSession stSim0 "nosuch" :=
  C9_close_noop_idempotent stSim0 "nosuch"

theorem createSessionCore_ok {st : SamService} (now : Nat) (sid dir : String)
    {vid : Video} (h : vid.openable = true) :
    (createSessionCore st now sid dir vid).2.isOk = true := by
  unfold createSessionCore loadVideoFrames
  rw [h]
  rfl

/-- C6: in every reachable predictor state the session table holds at most
`max_concurrent_sessions` sessions; and an `Open` (`create_session`) call
arriving at the limit first runs the expired-session sweep, succeeds iff the
sweep brought the count below the limit (given a readable video), fails with
the capacity `RuntimeError` iff the count is still at the limit, and that
error's message names the limit. -/
theorem C6_capacity_invariant_and_gate {st : SamService} (h : Reachable st) :
    st.sessions.length ≤ st.cfg.maxConcurrentSessions ∧
    ∀ (now : Nat) (newSid newDir : String) (vid : Video),
      st.sessions.length = st.cfg.maxConcurrentSessions →
      vid.openable = true →
      (((createSession st now newSid newDir vid).2.isOk = true) ↔
        (cleanupExpiredSessions st now).1.sessions.length
          < st.cfg.maxConcurrentSessions) ∧
      (st.cfg.maxConcurrentSessions
          ≤ (cleanupExpiredSessions st now).1.sessions.length →
        (createSession st now newSid newDir vid).2 =
          .error (.runtimeError (capacityMsg st.cfg.maxConcurrentSessions))) ∧
      (∃ pre suf, capacityMsg st.cfg.maxConcurrentSessions =
        pre ++ toString st.cfg.maxConcurrentSessions ++ suf) := by
  refine ⟨reachable_sessInv h, ?_⟩
  intro now newSid newDir vid hlen hopen
  have hfull : st.cfg.maxConcurrentSessions ≤ st.sessions.length := le_of_eq hlen.symm
  have hcfg := cleanup_cfg st now
  refine ⟨?_, ?_,
    ⟨"Maximum concurrent sessions (",
     ") reached. Please close existing sessions or wait for them to expire.", rfl⟩⟩
  · unfold createSession
    rw [if_pos hfull]
    dsimp only
    by_cases hc : st.cfg.maxConcurrentSessions
        ≤ (cleanupExpiredSessions st now).1.sessions.length
    · rw [if_pos (by rw [hcfg]; exact hc)]
      constructor
      · intro hfalse; exact absurd hfalse (by simp [Except.isOk, Except.toBool])
      · intro hlt; omega
    · rw [if_neg (by rw [hcfg]; exact hc)]
      constructor
      · intro _; omega
      · intro _; exact createSessionCore_ok now newSid newDir hopen
  · intro hge
    unfold createSession
    rw [if_pos hfull]
    dsimp only
    rw [if_pos (by rw [hcfg]; exact hge)]
    dsimp only
    rw [hcfg]

/-- Witness for C6 at the initial state of a zero-capacity configuration
(the table is at its limit from the start). -/
theorem C6_witness :
    ((SamService.init { predictorLoaded := false, maxConcurrentSessions := 0 }).sessions.length
        ≤ 0) ∧
    (((createSession
          (SamService.init { predictorLoaded := false, maxConcurrentSessions := 0 })
          3 "s" "d" vidSmall).2.isOk = true) ↔
      (cleanupExpiredSessions
          (SamService.init { predictorLoaded := false, maxConcurrentSessions := 0 })
          3).1.sessions.length < 0) ∧
    ((0 : Nat) ≤ (cleanupExpiredSessions
          (SamService.init { predictorLoaded := false, maxConcurrentSessions := 0 })
          3).1.sessions.length →
      (createSession
          (SamService.init { predictorLoaded := false, maxConcurrentSessions := 0 })
          3 "s" "d" vidSmall).2 = .error (.runtimeError (capacityMsg 0))) ∧
    (∃ pre suf, capacityMsg 0 = pre ++ toString 0 ++ suf) := by
  have h := C6_capacity_invariant_and_gate
    (Reachable.init { predictorLoaded := false, maxConcurrentSessions := 0 })
  exact ⟨h.1, (h.2 3 "s" "d" vidSmall rfl rfl).1, (h.2 3 "s" "d" vidSmall rfl rfl).2.1,
    (h.2 3 "s" "d" vidSmall rfl rfl).2.2⟩

/-- C8: `create_session` on a readable video loads exactly the first
`max_video_frames` frames and sets `total_frames` to the number actually
loaded: a longer video is truncated to exactly `max_video_frames` trailing-
frames-dropped (never to zero when the cap is positive), and a video of
exactly `max_video_frames` frames is loaded whole with `total_frames` equal
to its frame count. -/
theorem C8_frame_truncation (st : SamService) (now : Nat) (newSid newDir : String)
    (vid : Video) (hcap : st.sessions.length < st.cfg.maxConcurrentSessions)
    (hopen : vid.openable = true) :
    ∃ s : VideoSession,
      (createSession st now newSid newDir vid).2 = .ok s ∧
      s.videoFrames = vid.frames.take st.cfg.maxVideoFrames ∧
      s.totalFrames = min st.cfg.maxVideoFrames vid.frames.length ∧
      (st.cfg.maxVideoFrames < vid.frames.length →
        s.totalFrames = st.cfg.maxVideoFrames ∧
        (0 < st.cfg.maxVideoFrames → s.videoFrames ≠ [])) ∧
      (vid.frames.length = st.cfg.maxVideoFrames →
        s.videoFrames = vid.frames ∧ s.totalFrames = vid.frames.length) := by
  unfold createSession
  rw [if_neg (by omega)]
  unfold createSessionCore loadVideoFrames
  rw [hopen]
  dsimp only
  have htake : readFrames st.cfg.maxVideoFrames vid.frames 0
      = vid.frames.take st.cfg.maxVideoFrames := by
    rw [readFrames_eq_take]
    simp
  refine ⟨_, rfl, htake, ?_, ?_, ?_⟩
  · dsimp only
    rw [htake, List.length_take]
  · intro hlt
    constructor
    · dsimp only
      rw [htake, List.length_take]
      omega
    · intro hpos
      dsimp only
      rw [htake]
      have : (vid.frames.take st.cfg.maxVideoFrames).length = st.cfg.maxVideoFrames := by
        rw [List.length_take]; omega
      intro hnil
      rw [hnil] at this
      simp at this
      omega
  · intro heq
    constructor
    · dsimp only
      rw [htake, ← heq, List.take_length]
    · dsimp only
      rw [htake, List.length_take]
      omega

/-- C1 counterexample: the claim says that when injection of the override
mask into the Segmenter state fails, the local masks map is restored to its
pre-call value.  In the concrete loaded-mode state `stLoad1` (object 7 holds
mask [[1,0],[0,0]] at frame 0), an `update_mask` whose injection raises
"boom" reports failure — but the local map now holds the new normalized mask
[[255,0],[0,0]], not the old one: the two stores diverge. -/
theorem C1_counterexample :
    ((updateMask stLoad1 2 "L" 0 7 (.gray [[200, 0], [0, 0]]) (fun m _ _ => m)
        (.error "boom")).2.isOk = false) ∧
    (((lookupA "L" stLoad1.sessions).bind fun s => lookupA 7 s.objects).map
        (fun o => lookupA 0 o.masks) = some (some [[1, 0], [0, 0]])) ∧
    (((lookupA "L" (updateMask stLoad1 2 "L" 0 7 (.gray [[200, 0], [0, 0]])
          (fun m _ _ => m) (.error "boom")).1.sessions).bind
        fun s => lookupA 7 s.objects).map (fun o => lookupA 0 o.masks)
      = some (some [[255, 0], [0, 0]])) ∧
    ([[255, 0], [0, 0]] : Mask2D) ≠ [[1, 0], [0, 0]] := by
  refine ⟨rfl, rfl, rfl, by decide⟩

/-- C1 as amended: if injection of the normalized override mask into the
Segmenter inference state fails, `update_mask` reports failure (a
`ValueError` wrapping the Segmenter error) — but the session's local masks
map KEEPS the newly normalized mask at `(object_id, frame_idx)` (the write
at line 923 precedes the injection attempt and is not rolled back), so the
local map and the Segmenter state can diverge; the code logs this divergence
instead of undoing it. -/
theorem C1_override_failure_keeps_new_mask
    (st : SamService) (now : Nat) (sid : String) (frameIdx objectId : Int)
    (um : UserMask) (resizeFn : Mask2D → Nat → Nat → Mask2D) (e : String)
    (s : VideoSession) (hs : lookupA sid st.sessions = some s)
    (tObj : TrackedObject) (ho : lookupA objectId s.objects = some tObj)
    (hpred : st.cfg.predictorLoaded = true) (hinf : s.hasInferenceState = true) :
    (updateMask st now sid frameIdx objectId um resizeFn (.error e)).2 =
      .error (.valueError ("Failed to inject mask into SAM2 inference state: " ++ e)) ∧
    ∃ s' tObj',
      lookupA sid
          (updateMask st now sid frameIdx objectId um resizeFn (.error e)).1.sessions
        = some s' ∧
      lookupA objectId s'.objects = some tObj' ∧
      lookupA frameIdx tObj'.masks =
        some (normalizeUserMask resizeFn um s.frameHeight s.frameWidth) := by
  unfold updateMask
  rw [getSession_some now hs]
  dsimp only
  rw [ho]
  dsimp only
  rw [if_pos (by simp [hpred, hinf])]
  exact ⟨rfl, _, _, lookupA_insertA_self _ _ _, lookupA_insertA_self _ _ _,
    lookupA_insertA_self _ _ _⟩

/-- Witness for C1's amended theorem at the concrete state of the
counterexample. -/
theorem C1_witness :
    (updateMask stLoad1 2 "L" 0 7 (.gray [[200, 0], [0, 0]]) (fun m _ _ => m)
        (.error "boom")).2 =
      .error (.valueError ("Failed to inject mask into SAM2 inference state: "
        ++ "boom")) ∧
    ∃ s' tObj',
      lookupA "L" (updateMask stLoad1 2 "L" 0 7 (.gray [[200, 0], [0, 0]])
          (fun m _ _ => m) (.error "boom")).1.sessions = some s' ∧
      lookupA 7 s'.objects = some tObj' ∧
      lookupA 0 tObj'.masks =
        some (normalizeUserMask (fun m _ _ => m) (.gray [[200, 0], [0, 0]])
          sessL.frameHeight sessL.frameWidth) :=
  C1_override_failure_keeps_new_mask stLoad1 2 "L" 0 7 (.gray [[200, 0], [0, 0]])
    (fun m _ _ => m) "boom" sessL (by decide) objL (by decide) rfl rfl

/-- C2 counterexample: the claim says the pixel value set of every stored
and wire-encoded mask is a subset of {0, 255}, never {0, 1}.  But a
successful `add_object` (here: simulation mode, one positive click at (1,1)
on a 4×4 session) stores a mask containing the value 1, and `encode_mask`
passes a uint8 array through unscaled, so the wire pixels are the same
{0, 1}-valued grid. -/
theorem C2_counterexample :
    ((addObject stSim0 1 "sid" 0 5 [(1, 1)] [1] "" "" (.ok [])).2.isOk = true) ∧
    (((lookupA "sid" stSim1.sessions).bind fun s => lookupA 5 s.objects).map
        (fun o => lookupA 0 o.masks) = some (some maskS5)) ∧
    maskHasValue maskS5 1 ∧
    (1 : Nat) ∉ ([0, 255] : List Nat) ∧
    encodeMaskPixels maskS5 = maskS5 := by
  refine ⟨rfl, rfl, by decide, by decide, rfl⟩

/-- C2 as amended: after a successful `AddObject` the object id is in the
session's catalog, the frame is in the object's masks, the stored mask has
the session's working dimensions (given that the Segmenter returns logits of
working dimensions in loaded mode; in simulation mode unconditionally), and
the pixel value set of both the stored mask and its wire encoding is a
subset of {0, 1} — the binarization `astype(np.uint8)` of `logits > 0`
produces 0/1, and `encode_mask` keeps uint8 pixels unchanged. -/
theorem C2_addObject_postconditions
    (st : SamService) (now : Nat) (sid : String) (frameIdx objectId : Int)
    (points : List (Int × Int)) (labels : List Int) (name category : String)
    (seg : Except String (List (List Int)))
    (s : VideoSession) (hs : lookupA sid st.sessions = some s)
    (hfr : ¬ (frameIdx < 0 ∨ (s.totalFrames : Int) ≤ frameIdx))
    (hseg : (st.cfg.predictorLoaded && s.hasInferenceState) = true →
      ∃ lg, seg = .ok lg ∧ gridShape lg s.frameHeight s.frameWidth) :
    (addObject st now sid frameIdx objectId points labels name category seg).2.isOk
      = true ∧
    ∃ s' tObj mask,
      lookupA sid (addObject st now sid frameIdx objectId points labels name
          category seg).1.sessions = some s' ∧
      lookupA objectId s'.objects = some tObj ∧
      lookupA frameIdx tObj.masks = some mask ∧
      gridShape mask s.frameHeight s.frameWidth ∧
      maskValsIn mask [0, 1] ∧
      maskValsIn (encodeMaskPixels mask) [0, 1] := by
  unfold addObject
  rw [getSession_some now hs]
  dsimp only
  rw [if_neg hfr]
  by_cases hb : (st.cfg.predictorLoaded && s.hasInferenceState) = true
  · obtain ⟨lg, hlg, hshape⟩ := hseg hb
    subst hlg
    rw [if_pos hb]
    dsimp only
    exact ⟨rfl, _, _, _, lookupA_insertA_self _ _ _, lookupA_insertA_self _ _ _,
      lookupA_singleton _ _, gridShape_binarizeLogits hshape,
      maskValsIn_binarizeLogits lg,
      maskValsIn_encodeMaskPixels (maskValsIn_binarizeLogits lg) (by simp)⟩
  · rw [if_neg hb]
    dsimp only
    exact ⟨rfl, _, _, _, lookupA_insertA_self _ _ _, lookupA_insertA_self _ _ _,
      lookupA_singleton _ _, gridShape_simulateMask _ _ _ _,
      maskValsIn_simulateMask _ _ _ _,
      maskValsIn_encodeMaskPixels (maskValsIn_simulateMask _ _ _ _) (by simp)⟩

/-- Witness for C2's amended theorem at the counterexample's concrete call. -/
theorem C2_witness :
    (addObject stSim0 1 "sid" 0 5 [(1, 1)] [1] "" "" (.ok [])).2.isOk = true ∧
    ∃ s' tObj mask,
      lookupA "sid"
          (addObject stSim0 1 "sid" 0 5 [(1, 1)] [1] "" "" (.ok [])).1.sessions
        = some s' ∧
      lookupA 5 s'.objects = some tObj ∧
      lookupA 0 tObj.masks = some mask ∧
      gridShape mask sessS0.frameHeight sessS0.frameWidth ∧
      maskValsIn mask [0, 1] ∧
      maskValsIn (encodeMaskPixels mask) [0, 1] :=
  C2_addObject_postconditions stSim0 1 "sid" 0 5 [(1, 1)] [1] "" "" (.ok [])
    sessS0 (by decide) (by decide) (fun hb => absurd hb (by decide))

/-- C3 counterexample: the claim says `AddObject` fails with
`InvalidArgument` when `len(points) != len(labels)` or some label is outside
{0, 1}.  But `add_object` validates neither: with 1 point and 2 labels it
succeeds, and with the out-of-domain label 5 it also succeeds. -/
theorem C3_counterexample :
    ([((1 : Int), (1 : Int))].length ≠ [(0 : Int), 1].length) ∧
    ((addObject stSim0 1 "sid" 0 5 [(1, 1)] [0, 1] "" "" (.ok [])).2.isOk = true) ∧
    ((5 : Int) ∉ ([0, 1] : List Int)) ∧
    ((addObject stSim0 1 "sid" 0 6 [(1, 1)] [5] "" "" (.ok [])).2.isOk = true) := by
  refine ⟨by decide, rfl, by decide, rfl⟩

/-- C3 as amended: `add_object` validates only the session lookup and the
frame-index range.  An out-of-range `frame_idx` fails with the
`Invalid frame index` `ValueError` and creates no TrackedObject (the
session's objects are unchanged; only `last_accessed` is refreshed); an
in-range `frame_idx` succeeds — regardless of whether
`len(points) == len(labels)` or the labels lie in {0, 1} — given the session
exists and the Segmenter succeeds. -/
theorem C3_addObject_validation
    (st : SamService) (now : Nat) (sid : String) (frameIdx objectId : Int)
    (points : List (Int × Int)) (labels : List Int) (name category : String)
    (seg : Except String (List (List Int)))
    (s : VideoSession) (hs : lookupA sid st.sessions = some s)
    (hseg : (st.cfg.predictorLoaded && s.hasInferenceState) = true →
      ∃ lg, seg = .ok lg) :
    ((frameIdx < 0 ∨ (s.totalFrames : Int) ≤ frameIdx) →
      (addObject st now sid frameIdx objectId points labels name category seg).2
        = .error (.valueError ("Invalid frame index: " ++ toString frameIdx)) ∧
      ∀ s', lookupA sid (addObject st now sid frameIdx objectId points labels name
          category seg).1.sessions = some s' → s'.objects = s.objects) ∧
    (¬ (frameIdx < 0 ∨ (s.totalFrames : Int) ≤ frameIdx) →
      (addObject st now sid frameIdx objectId points labels name category seg).2.isOk
        = true) := by
  constructor
  · intro hbad
    unfold addObject
    rw [getSession_some now hs]
    dsimp only
    rw [if_pos hbad]
    refine ⟨rfl, ?_⟩
    intro s' hs'
    rw [lookupA_insertA_self] at hs'
    cases hs'
    rfl
  · intro hgood
    unfold addObject
    rw [getSession_some now hs]
    dsimp only
    rw [if_neg hgood]
    by_cases hb : (st.cfg.predictorLoaded && s.hasInferenceState) = true
    · obtain ⟨lg, hlg⟩ := hseg hb
      subst hlg
      rw [if_pos hb]
      rfl
    · rw [if_neg hb]
      rfl

/-- Witness for C3's amended theorem: invalid frame index -1 on the
one-session simulation state, with mismatched points/labels. -/
theorem C3_witness :
    (((-1 : Int) < 0 ∨ (sessS0.totalFrames : Int) ≤ -1) →
      (addObject stSim0 1 "sid" (-1) 5 [(1, 1)] [0, 1] "" "" (.ok [])).2
        = .error (.valueError ("Invalid frame index: " ++ toString (-1 : Int))) ∧
      ∀ s', lookupA "sid"
          (addObject stSim0 1 "sid" (-1) 5 [(1, 1)] [0, 1] "" "" (.ok [])).1.sessions
        = some s' → s'.objects = sessS0.objects) ∧
    (¬ ((-1 : Int) < 0 ∨ (sessS0.totalFrames : Int) ≤ -1) →
      (addObject stSim0 1 "sid" (-1) 5 [(1, 1)] [0, 1] "" "" (.ok [])).2.isOk
        = true) :=
  C3_addObject_validation stSim0 1 "sid" (-1) 5 [(1, 1)] [0, 1] "" "" (.ok [])
    sessS0 (by decide) (fun hb => absurd hb (by decide))

/-- C7 counterexample: the claim says `Refine` with `frame_idx = -1` fails
with `InvalidArgument` and leaves prompts and masks unchanged.  But
`refine_mask` never validates the frame index: on the concrete state
`stSim1`, refining object 5 at frame -1 succeeds and stores a mask under
key -1 — so the invariant "every frame_idx in prompts and masks is in
[0, total_frames)" is violated by a reachable state. -/
theorem C7_counterexample :
    ((refineMask stSim1 2 "sid" (-1) 5 [(2, 2)] [1] (.ok [])).2.isOk = true) ∧
    ((((lookupA "sid"
          (refineMask stSim1 2 "sid" (-1) 5 [(2, 2)] [1] (.ok [])).1.sessions).bind
        fun s => lookupA 5 s.objects).map fun o => (lookupA (-1) o.masks).isSome)
      = some true) ∧
    ¬ ((0 : Int) ≤ -1) := by
  refine ⟨rfl, rfl, by decide⟩

/-- C7 as amended: `add_object` does reject out-of-range frame indices, but
`refine_mask` performs no frame-index validation at all: for ANY integer
`frame_idx` (including -1 and `total_frames`), given the session and the
object exist (and the Segmenter succeeds), the refinement succeeds, the
`Refinement-Points` record is appended to the prompt list, and a mask is
stored under that very index — so the range invariant holds only for
entries created by `AddObject`, not for those `Refine` introduces. -/
theorem C7_refine_accepts_any_frame
    (st : SamService) (now : Nat) (sid : String) (frameIdx objectId : Int)
    (points : List (Int × Int)) (labels : List Int)
    (seg : Except String (List (List Int)))
    (s : VideoSession) (hs : lookupA sid st.sessions = some s)
    (tObj : TrackedObject) (ho : lookupA objectId s.objects = some tObj)
    (hseg : (st.cfg.predictorLoaded && s.hasInferenceState) = true →
      ∃ lg, seg = .ok lg) :
    (refineMask st now sid frameIdx objectId points labels seg).2.isOk = true ∧
    ∃ s' tObj' m,
      lookupA sid
          (refineMask st now sid frameIdx objectId points labels seg).1.sessions
        = some s' ∧
      lookupA objectId s'.objects = some tObj' ∧
      lookupA frameIdx tObj'.masks = some m ∧
      tObj'.prompts = tObj.prompts ++
        [{ frameIdx := frameIdx, points := points, labels := labels,
           kind := .refinement }] := by
  unfold refineMask
  rw [getSession_some now hs]
  dsimp only
  rw [ho]
  dsimp only
  by_cases hb : (st.cfg.predictorLoaded && s.hasInferenceState) = true
  · obtain ⟨lg, hlg⟩ := hseg hb
    subst hlg
    rw [if_pos hb]
    dsimp only
    exact ⟨rfl, _, _, _, lookupA_insertA_self _ _ _, lookupA_insertA_self _ _ _,
      lookupA_insertA_self _ _ _, rfl⟩
  · rw [if_neg hb]
    dsimp only
    exact ⟨rfl, _, _, _, lookupA_insertA_self _ _ _, lookupA_insertA_self _ _ _,
      lookupA_insertA_self _ _ _, rfl⟩

/-- Witness for C7's amended theorem: refine object 5 of `stSim1` at
frame -1. -/
theorem C7_witness :
    (refineMask stSim1 2 "sid" (-1) 5 [(2, 2)] [1] (.ok [])).2.isOk = true ∧
    ∃ s' tObj' m,
      lookupA "sid"
          (refineMask stSim1 2 "sid" (-1) 5 [(2, 2)] [1] (.ok [])).1.sessions
        = some s' ∧
      lookupA 5 s'.objects = some tObj' ∧
      lookupA (-1) tObj'.masks = some m ∧
      tObj'.prompts = objS5.prompts ++
        [{ frameIdx := -1, points := [(2, 2)], labels := [1],
           kind := .refinement }] :=
  C7_refine_accepts_any_frame stSim1 2 "sid" (-1) 5 [(2, 2)] [1] (.ok [])
    sessS1 (by decide) objS5 (by decide) (fun hb => absurd hb (by decide))

/-- C10: a second `add_object` (or `add_object_with_box`) with an object id
already present does not fail: it replaces the TrackedObject wholesale — the
new object's prompt list is exactly the one fresh initial record and its
masks dict holds exactly the one new frame, so the previous prompt history
and all previous per-frame masks for that id are discarded — and its color
is assigned round-robin from the palette by the current catalog size
(which the replacement leaves unchanged). -/
theorem C10_readd_replaces_object
    (st : SamService) (now : Nat) (sid : String) (frameIdx objectId : Int)
    (points : List (Int × Int)) (labels : List Int)
    (box : Int × Int × Int × Int) (name category : String)
    (seg segB : Except String (List (List Int)))
    (s : VideoSession) (hs : lookupA sid st.sessions = some s)
    (old : TrackedObject) (hold : lookupA objectId s.objects = some old)
    (hfr : ¬ (frameIdx < 0 ∨ (s.totalFrames : Int) ≤ frameIdx))
    (hseg : (st.cfg.predictorLoaded && s.hasInferenceState) = true →
      ∃ lg, seg = .ok lg)
    (hsegB : (st.cfg.predictorLoaded && s.hasInferenceState) = true →
      ∃ lg, segB = .ok lg) :
    ((addObject st now sid frameIdx objectId points labels name category seg).2.isOk
        = true ∧
      ∃ s' tObj mask,
        lookupA sid (addObject st now sid frameIdx objectId points labels name
            category seg).1.sessions = some s' ∧
        lookupA objectId s'.objects = some tObj ∧
        tObj.prompts = [{ frameIdx := frameIdx, points := points, labels := labels,
                          kind := .initial }] ∧
        tObj.masks = [(frameIdx, mask)] ∧
        tObj.color = OBJECT_COLORS.getD (s.objects.length % OBJECT_COLORS.length)
          (255, 0, 0) ∧
        s'.objects.length = s.objects.length) ∧
    ((addObjectWithBox st now sid frameIdx objectId box name category segB).2.isOk
        = true ∧
      ∃ s' tObj mask,
        lookupA sid (addObjectWithBox st now sid frameIdx objectId box name
            category segB).1.sessions = some s' ∧
        lookupA objectId s'.objects = some tObj ∧
        tObj.prompts = [{ frameIdx := frameIdx, box := some box,
                          kind := .initialBox }] ∧
        tObj.masks = [(frameIdx, mask)] ∧
        tObj.color = OBJECT_COLORS.getD (s.objects.length % OBJECT_COLORS.length)
          (255, 0, 0) ∧
        s'.objects.length = s.objects.length) := by
  constructor
  · unfold addObject
    rw [getSession_some now hs]
    dsimp only
    rw [if_neg hfr]
    by_cases hb : (st.cfg.predictorLoaded && s.hasInferenceState) = true
    · obtain ⟨lg, hlg⟩ := hseg hb
      subst hlg
      rw [if_pos hb]
      dsimp only
      exact ⟨rfl, _, _, _, lookupA_insertA_self _ _ _, lookupA_insertA_self _ _ _,
        rfl, rfl, rfl, length_insertA_of_lookupA _ _ _ _ hold⟩
    · rw [if_neg hb]
      dsimp only
      exact ⟨rfl, _, _, _, lookupA_insertA_self _ _ _, lookupA_insertA_self _ _ _,
        rfl, rfl, rfl, length_insertA_of_lookupA _ _ _ _ hold⟩
  · unfold addObjectWithBox
    rw [getSession_some now hs]
    dsimp only
    rw [if_neg hfr]
    by_cases hb : (st.cfg.predictorLoaded && s.hasInferenceState) = true
    · obtain ⟨lg, hlg⟩ := hsegB hb
      subst hlg
      rw [if_pos hb]
      dsimp only
      exact ⟨rfl, _, _, _, lookupA_insertA_self _ _ _, lookupA_insertA_self _ _ _,
        rfl, rfl, rfl, length_insertA_of_lookupA _ _ _ _ hold⟩
    · rw [if_neg hb]
      dsimp only
      exact ⟨rfl, _, _, _, lookupA_insertA_self _ _ _, lookupA_insertA_self _ _ _,
        rfl, rfl, rfl, length_insertA_of_lookupA _ _ _ _ hold⟩

/-- Witness for C10: re-adding object 5 of `stSim1` at frame 1, by points
and by box. -/
theorem C10_witness :
    ((addObject stSim1 2 "sid" 1 5 [(2, 2)] [0] "x" "y" (.ok [])).2.isOk = true ∧
      ∃ s' tObj mask,
        lookupA "sid"
            (addObject stSim1 2 "sid" 1 5 [(2, 2)] [0] "x" "y" (.ok [])).1.sessions
          = some s' ∧
        lookupA 5 s'.objects = some tObj ∧
        tObj.prompts = [{ frameIdx := 1, points := [(2, 2)], labels := [0],
                          kind := .initial }] ∧
        tObj.masks = [(1, mask)] ∧
        tObj.color = OBJECT_COLORS.getD
          (sessS1.objects.length % OBJECT_COLORS.length) (255, 0, 0) ∧
        s'.objects.length = sessS1.objects.length) ∧
    ((addObjectWithBox stSim1 2 "sid" 1 5 (0, 0, 2, 2) "x" "y" (.ok [])).2.isOk
        = true ∧
      ∃ s' tObj mask,
        lookupA "sid"
            (addObjectWithBox stSim1 2 "sid" 1 5 (0, 0, 2, 2) "x" "y"
              (.ok [])).1.sessions = some s' ∧
        lookupA 5 s'.objects = some tObj ∧
        tObj.prompts = [{ frameIdx := 1, box := some (0, 0, 2, 2),
                          kind := .initialBox }] ∧
        tObj.masks = [(1, mask)] ∧
        tObj.color = OBJECT_COLORS.getD
          (sessS1.objects.length % OBJECT_COLORS.length) (255, 0, 0) ∧
        s'.objects.length = sessS1.objects.length) :=
  C10_readd_replaces_object stSim1 2 "sid" 1 5 [(2, 2)] [0] (0, 0, 2, 2) "x" "y"
    (.ok []) (.ok []) sessS1 (by decide) objS5 (by decide) (by decide)
    (fun hb => absurd hb (by decide)) (fun hb => absurd hb (by decide))

/-- Witness for C8: a 3-frame video against a 2-frame cap. -/
theorem C8_witness :
    ∃ s : VideoSession,
      (createSession (SamService.init cfgTrunc) 0 "t" "dt" vidSmall).2 = .ok s ∧
      s.videoFrames = vidSmall.frames.take cfgTrunc.maxVideoFrames ∧
      s.totalFrames = min cfgTrunc.maxVideoFrames vidSmall.frames.length ∧
      (cfgTrunc.maxVideoFrames < vidSmall.frames.length →
        s.totalFrames = cfgTrunc.maxVideoFrames ∧
        (0 < cfgTrunc.maxVideoFrames → s.videoFrames ≠ [])) ∧
      (vidSmall.frames.length = cfgTrunc.maxVideoFrames →
        s.videoFrames = vidSmall.frames ∧ s.totalFrames = vidSmall.frames.length) :=
  C8_frame_truncation (SamService.init cfgTrunc) 0 "t" "dt" vidSmall
    (by decide) (by decide)

end VidLabel
